import Mathlib

/-!
Verification of the `application-manager` library (`src/index.js`), a
wrapper around the macOS automation bridge (`applescript`) exposing five
public operations: `runningApplications`, `isOpen`, `quit`, `minimize`
and `focus`.  Each operation is embedded as a total Lean function from
the raw JavaScript argument values and an abstract bridge to a `Trace`
recording the scripts dispatched, the callback invocations and the
value returned (a synchronous throw, a plain value, or a promise).
-/

namespace AppManager

/-- A JavaScript runtime value, as far as the library inspects them.
`func` carries an opaque identifier; `error` is an `Error` object
carrying its message string. -/
inductive JSValue where
  | undefined
  | null
  | bool (b : Bool)
  | num (n : Int)
  | str (s : String)
  | arr (elems : List JSValue)
  | obj (fields : List (String × JSValue))
  | func (id : Nat)
  | error (msg : String)

/-- The JavaScript `typeof` operator. -/
def jsTypeof : JSValue → String
  | .undefined => "undefined"
  | .null => "object"
  | .bool _ => "boolean"
  | .num _ => "number"
  | .str _ => "string"
  | .arr _ => "object"
  | .obj _ => "object"
  | .func _ => "function"
  | .error _ => "object"

/-- JavaScript truthiness. -/
def truthy : JSValue → Bool
  | .undefined => false
  | .null => false
  | .bool b => b
  | .num n => !(n == 0)
  | .str s => !(s == "")
  | .arr _ => true
  | .obj _ => true
  | .func _ => true
  | .error _ => true

/-- `v === undefined`. -/
def isUndefined : JSValue → Bool
  | .undefined => true
  | _ => false

/-- `v instanceof Array`. -/
def isArray : JSValue → Bool
  | .arr _ => true
  | _ => false

/-- Underlying string of a value already known to have `typeof`
equal to "string". -/
def asString : JSValue → String
  | .str s => s
  | _ => ""

/-- Underlying element list of a value already known to be an array. -/
def asArray : JSValue → List JSValue
  | .arr xs => xs
  | _ => []

/-- Coercion of a value to a string, as performed by JavaScript template
literals and string concatenation, for the values the library ever
interpolates. -/
def toJSString : JSValue → String
  | .undefined => "undefined"
  | .null => "null"
  | .bool b => if b then "true" else "false"
  | .num n => toString n
  | .str s => s
  | .arr _ => ""
  | .obj _ => "[object Object]"
  | .func _ => "function"
  | .error msg => "Error: " ++ msg

/-- Property lookup in an object literal field list; a missing key reads
as `undefined`. -/
def getFieldList : List (String × JSValue) → String → JSValue
  | [], _ => .undefined
  | (k, v) :: rest, key => if k == key then v else getFieldList rest key

/-- JavaScript member access `v.key`.  `none` models the `TypeError`
thrown when reading a property of `null` or `undefined`; every other
non-object value simply reads `undefined` for the keys the library
uses (`background`, `all`). -/
def getField : JSValue → String → Option JSValue
  | .undefined, _ => none
  | .null, _ => none
  | .obj fields, key => some (getFieldList fields key)
  | _, _ => some .undefined

/-- JavaScript index access `v[0]`, used to unwrap the bridge result of
`runningApplications`; only reached on truthy values. -/
def indexZero : JSValue → JSValue
  | .arr [] => .undefined
  | .arr (x :: _) => x
  | .str s =>
    match s.data with
    | [] => .undefined
    | c :: _ => .str (String.mk [c])
  | .obj fields => getFieldList fields "0"
  | _ => .undefined

/-- The strict-equality normalization `res === "true"` in `isOpen`:
compare the raw bridge value with the string literal "true". -/
def isTrueLiteral : JSValue → Bool
  | .str s => s == "true"
  | _ => false

/-- Outcome of handing one script to the automation bridge: a raw success
value (possibly `undefined`, i.e. no value) or a failure message. -/
inductive BridgeOutcome where
  | ok (v : JSValue)
  | fail (e : String)

/-- The external automation bridge, abstracted as a function from the
script text to its outcome.  Both bridge entry points used by the
source (`execString` with a callback and the promisified
`execStringAsync`) dispatch the script and observe this outcome. -/
def Bridge := String → BridgeOutcome

/-- The settled state of a returned promise. -/
inductive PromiseState where
  | resolved (v : JSValue)
  | rejected (v : JSValue)

/-- What a call returns when it does not throw: a plain value, a
promise, or the opaque value returned by the user-supplied callback
(for the `return cb(err)` paths). -/
inductive Ret where
  | value (v : JSValue)
  | promise (p : PromiseState)
  | cbResult

/-- Either a synchronous throw or a normal return. -/
inductive CallResult where
  | thrown (e : JSValue)
  | returned (r : Ret)

/-- The observable behaviour of one call: the scripts dispatched to the
bridge in order, the argument lists of every invocation of the
user-supplied callback, and the result of the call. -/
structure Trace where
  dispatched : List String
  cbCalls : List (List JSValue)
  result : CallResult

/-- The template literal built by `runningApplications` (src/index.js
lines 85-88), with the raw line indentation of the source. -/
def runningApplicationsScript (background : JSValue) : String :=
  "tell application \"System Events\"\n"
    ++ "                    set listOfProcesses to (name of every process where background only is "
    ++ toJSString background ++ ")\n"
    ++ "                  end tell\n"
    ++ "                  return [listOfProcesses]"

/-- The script built by `isOpen` (src/index.js line 146). -/
def isOpenScript (application : String) : String :=
  "tell application \"System Events\" to (name of processes) contains \""
    ++ application ++ "\""

/-- The script built by `quit` for an array argument (src/index.js
lines 198-202): each element is wrapped in double quotes and the array
is interpolated, joining the elements with commas. -/
def quitListScript (applications : List JSValue) : String :=
  "set applicationList to \x7b"
    ++ String.intercalate "," (applications.map (fun a => "\"" ++ toJSString a ++ "\""))
    ++ "\x7d\n"
    ++ "                  repeat with appl in applicationList\n"
    ++ "                    quit application appl\n"
    ++ "                  end repeat"

/-- The script built by `quit` for a non-array argument (src/index.js
line 206). -/
def quitSingleScript (application : JSValue) : String :=
  "tell application \"" ++ toJSString application ++ "\" to quit"

/-- The primary script built by `minimize` (src/index.js lines 284-286). -/
def minimizeScript (application : String) (all : Bool) : String :=
  "tell application \"" ++ application ++ "\"\n"
    ++ "                     set miniaturized of "
    ++ (if all then "every window" else "window 1")
    ++ " to true\n"
    ++ "                  end tell"

/-- The fallback script built by `minimize` on primary failure
(src/index.js line 296). -/
def hideScript (application : String) : String :=
  "tell application \"System Events\" to tell process \"" ++ application
    ++ "\" to set visible to false"

/-- The script built by `focus` (src/index.js line 335). -/
def focusScript (application : String) : String :=
  "tell application \"" ++ application ++ "\" to activate"

/-- `runningApplications(options, cb)` (src/index.js lines 61-110).
Notable source details embedded faithfully: the callback-type error
message interpolates `typeof options`; the no-callback validation
failure is produced by `new Promise((reject, resolve) => reject(err))`,
whose first executor parameter is in fact the resolve function, so the
promise resolves with the error; the final `.catch` handler invokes the
callback with the error and then `return err`, resolving the chain with
the error value. -/
def runningApplications (bridge : Bridge) (options0 cb0 : JSValue) : Trace :=
  let optionsD := if isUndefined options0 then JSValue.obj [] else options0
  let swapped := jsTypeof optionsD == "function" && isUndefined cb0
  let options := if swapped then JSValue.obj [] else optionsD
  let cb := if swapped then optionsD else cb0
  if jsTypeof cb != "function" && jsTypeof cb != "undefined" then
    ⟨[], [], .thrown (.error ("Callback parameter is not a function, got " ++ jsTypeof options))⟩
  else if (jsTypeof options != "object" && !(isUndefined options)) || isArray options then
    let err := JSValue.error ("Options parameter is not an object, got "
      ++ (if isArray options then "array" else jsTypeof options))
    if !truthy cb then
      ⟨[], [], .returned (.promise (.resolved err))⟩
    else
      ⟨[], [[err]], .returned .cbResult⟩
  else
    match getField options "background" with
    | none => ⟨[], [], .thrown (.error "TypeError: Cannot read properties of null (reading \x27background\x27)")⟩
    | some bg =>
      let background := if truthy bg then bg else JSValue.bool false
      let script := runningApplicationsScript background
      match bridge script with
      | .ok res =>
        if !truthy res then
          let err := JSValue.error "Could not get running applications."
          ⟨[script], if truthy cb then [[err]] else [], .returned (.promise (.resolved err))⟩
        else
          let flat := indexZero res
          ⟨[script], if truthy cb then [[JSValue.null, flat]] else [],
            .returned (.promise (.resolved flat))⟩
      | .fail e =>
        let err := JSValue.error e
        ⟨[script], if truthy cb then [[err]] else [], .returned (.promise (.resolved err))⟩

/-- `isOpen(application, cb)` (src/index.js lines 127-162).  The
callback-type error message interpolates `typeof application`; in the
`.catch` handler the source calls `cb(res)` where `res` is not in
scope, so with a callback present a bridge failure raises a
`ReferenceError` inside the handler and the chain rejects with it,
never invoking the callback. -/
def isOpen (bridge : Bridge) (application cb : JSValue) : Trace :=
  if jsTypeof cb != "function" && !(isUndefined cb) then
    ⟨[], [], .thrown (.error ("Callback parameter is not a function, got " ++ jsTypeof application))⟩
  else if jsTypeof application != "string" then
    let err := JSValue.error ("Application parameter is not a string, got " ++ jsTypeof application)
    if !truthy cb then
      ⟨[], [], .returned (.promise (.resolved err))⟩
    else
      ⟨[], [[err]], .returned .cbResult⟩
  else
    let script := isOpenScript (asString application)
    match bridge script with
    | .ok v =>
      let res := JSValue.bool (isTrueLiteral v)
      ⟨[script], if truthy cb then [[JSValue.null, res]] else [],
        .returned (.promise (.resolved res))⟩
    | .fail e =>
      if truthy cb then
        ⟨[script], [], .returned (.promise (.rejected (.error "ReferenceError: res is not defined")))⟩
      else
        ⟨[script], [], .returned (.promise (.resolved (.error e)))⟩

/-- `quit(application, cb)` (src/index.js lines 179-221).  The guard
`typeof application !== "string" && !application instanceof Array`
parses as `(typeof application !== "string") && ((!application)
instanceof Array)`; a boolean is never an `Array`, so the guard can
never fire.  The array branch returns the callback-style bridge
`execString` call (modelled as returning `undefined`; the spec
boundary gives `execute(script, callback(error, result))` no return
value).  The single-application branch builds a promise chain without
returning it, so the call returns `undefined`. -/
def quit (bridge : Bridge) (application cb : JSValue) : Trace :=
  if jsTypeof cb != "function" && jsTypeof cb != "undefined" then
    ⟨[], [], .thrown (.error ("Callback parameter is not a function, got " ++ jsTypeof application))⟩
  else if jsTypeof application != "string" && isArray (JSValue.bool (!truthy application)) then
    let err := JSValue.error ("Application parameter is not a string, got " ++ jsTypeof application)
    if !truthy cb then
      ⟨[], [], .returned (.promise (.resolved err))⟩
    else
      ⟨[], [[err]], .returned .cbResult⟩
  else if isArray application then
    let script := quitListScript (asArray application)
    match bridge script with
    | .ok v =>
      ⟨[script], if truthy cb then [[JSValue.null, v]] else [], .returned (.value .undefined)⟩
    | .fail e =>
      ⟨[script], if truthy cb then [[JSValue.error e, JSValue.undefined]] else [],
        .returned (.value .undefined)⟩
  else
    let script := quitSingleScript application
    match bridge script with
    | .ok _ =>
      ⟨[script], if truthy cb then [[JSValue.null]] else [], .returned (.value .undefined)⟩
    | .fail e =>
      ⟨[script], if truthy cb then [[JSValue.error e]] else [], .returned (.value .undefined)⟩

/-- `minimize(application, options, cb)` (src/index.js lines 247-302).
`let all = options.all || true` is `true` whenever `options.all` is
falsy, so `all` is always `true`.  On primary failure the `.catch`
handler dispatches the hide script: with a callback it returns
`execString(hide, err => cb(err))` (the shadowed `err` is the fallback
outcome) so the chain resolves with the `undefined` return of `execString`;
without a callback it returns `execStringAsync(hide)`, so the chain
adopts the fallback outcome. -/
def minimize (bridge : Bridge) (application options0 cb0 : JSValue) : Trace :=
  let optionsD := if isUndefined options0 then JSValue.obj [] else options0
  let swapped := jsTypeof optionsD == "function" && isUndefined cb0
  let options := if swapped then JSValue.obj [] else optionsD
  let cb := if swapped then optionsD else cb0
  if jsTypeof cb != "function" && !(isUndefined cb) then
    ⟨[], [], .thrown (.error ("Callback parameter is not a function, got " ++ jsTypeof cb))⟩
  else if jsTypeof application != "string" then
    let err := JSValue.error ("Application parameter is not a string, got " ++ jsTypeof application)
    if !truthy cb then
      ⟨[], [], .returned (.promise (.resolved err))⟩
    else
      ⟨[], [[err]], .returned .cbResult⟩
  else
    match getField options "all" with
    | none => ⟨[], [], .thrown (.error "TypeError: Cannot read properties of null (reading \x27all\x27)")⟩
    | some allVal =>
      if !(isUndefined allVal) && jsTypeof allVal != "boolean" then
        let err := JSValue.error ("Option \x27all\x27 parameter is not a boolean, got "
          ++ jsTypeof allVal)
        if !truthy cb then
          ⟨[], [], .returned (.promise (.resolved err))⟩
        else
          ⟨[], [[err]], .returned .cbResult⟩
      else
        let all := if truthy allVal then allVal else JSValue.bool true
        let script := minimizeScript (asString application) (truthy all)
        match bridge script with
        | .ok _ =>
          ⟨[script], if truthy cb then [[]] else [], .returned (.promise (.resolved .undefined))⟩
        | .fail _ =>
          let hide := hideScript (asString application)
          if truthy cb then
            match bridge hide with
            | .ok _ =>
              ⟨[script, hide], [[JSValue.null]], .returned (.promise (.resolved .undefined))⟩
            | .fail e2 =>
              ⟨[script, hide], [[JSValue.error e2]], .returned (.promise (.resolved .undefined))⟩
          else
            match bridge hide with
            | .ok v => ⟨[script, hide], [], .returned (.promise (.resolved v))⟩
            | .fail e2 => ⟨[script, hide], [], .returned (.promise (.rejected (.error e2)))⟩

/-- `focus(application, cb)` (src/index.js lines 318-351).  Both error
constructions pass the offending type as a second argument to
`new Error(msg, type)` — separated by a comma, not concatenated — so
`Error` discards it and the message ends at `"got "`.  The promise
chain is built but not returned, so the call returns `undefined`. -/
def focus (bridge : Bridge) (application cb : JSValue) : Trace :=
  if jsTypeof cb != "function" && !(isUndefined cb) then
    ⟨[], [], .thrown (.error "Callback parameter is not a function, got ")⟩
  else if jsTypeof application != "string" then
    let err := JSValue.error "Application parameter is not a string, got "
    if !truthy cb then
      ⟨[], [], .returned (.promise (.resolved err))⟩
    else
      ⟨[], [[err]], .returned .cbResult⟩
  else
    let script := focusScript (asString application)
    match bridge script with
    | .ok _ =>
      ⟨[script], if truthy cb then [[JSValue.null]] else [], .returned (.value .undefined)⟩
    | .fail e =>
      ⟨[script], if truthy cb then [[JSValue.error e]] else [], .returned (.value .undefined)⟩

/-! ## Helper lemmas -/

theorem isUndefined_eq_false {v : JSValue} (h : v ≠ .undefined) : isUndefined v = false := by
  cases v <;> simp_all [isUndefined]

theorem jsTypeof_ne_undefined {v : JSValue} (h : v ≠ .undefined) : jsTypeof v ≠ "undefined" := by
  cases v <;> first | exact absurd rfl h | (simp only [jsTypeof]; decide)

/-! ## Claim theorems -/

/-- C1: for every call to minimize with a valid application and no
argument-shape error, if the primary miniaturize dispatch fails,
exactly one fallback dispatch occurs whose script sets the target
process visible attribute to false, and the final outcome in both
invocation styles equals the fallback dispatch outcome; the original
failure never appears in the outcome. -/
theorem minimize_primary_failure_triggers_single_hide_fallback
    (bridge : Bridge) (app : String) (e : String)
    (hp : bridge (minimizeScript app true) = .fail e) :
    (minimize bridge (.str app) .undefined .undefined).dispatched
        = [minimizeScript app true, hideScript app]
    ∧ (∀ fid : Nat, (minimize bridge (.str app) .undefined (.func fid)).dispatched
        = [minimizeScript app true, hideScript app])
    ∧ (∀ v, bridge (hideScript app) = .ok v →
        (minimize bridge (.str app) .undefined .undefined).result
            = .returned (.promise (.resolved v))
        ∧ ∀ fid : Nat, (minimize bridge (.str app) .undefined (.func fid)).cbCalls
            = [[JSValue.null]])
    ∧ (∀ e2, bridge (hideScript app) = .fail e2 →
        (minimize bridge (.str app) .undefined .undefined).result
            = .returned (.promise (.rejected (.error e2)))
        ∧ ∀ fid : Nat, (minimize bridge (.str app) .undefined (.func fid)).cbCalls
            = [[JSValue.error e2]]) := by
  refine ⟨?_, ?_, ?_, ?_⟩
  · rcases h2 : bridge (hideScript app) with v | e2 <;>
      simp [minimize, jsTypeof, isUndefined, truthy, asString, getField, getFieldList, hp, h2]
  · intro fid
    rcases h2 : bridge (hideScript app) with v | e2 <;>
      simp [minimize, jsTypeof, isUndefined, truthy, asString, getField, getFieldList, hp, h2]
  · intro v h2
    constructor
    · simp [minimize, jsTypeof, isUndefined, truthy, asString, getField, getFieldList, hp, h2]
    · intro fid
      simp [minimize, jsTypeof, isUndefined, truthy, asString, getField, getFieldList, hp, h2]
  · intro e2 h2
    constructor
    · simp [minimize, jsTypeof, isUndefined, truthy, asString, getField, getFieldList, hp, h2]
    · intro fid
      simp [minimize, jsTypeof, isUndefined, truthy, asString, getField, getFieldList, hp, h2]

/-- A bridge for which the primary miniaturize script fails and every
other script succeeds with no value. -/
def bridgeFallbackOk : Bridge := fun s =>
  if s = minimizeScript "Spotify" true then .fail "primary failed" else .ok .undefined

theorem minimize_primary_failure_triggers_single_hide_fallback_witness :
    bridgeFallbackOk (minimizeScript "Spotify" true) = .fail "primary failed"
    ∧ (minimize bridgeFallbackOk (.str "Spotify") .undefined .undefined).dispatched
        = [minimizeScript "Spotify" true, hideScript "Spotify"]
    ∧ (minimize bridgeFallbackOk (.str "Spotify") .undefined .undefined).result
        = .returned (.promise (.resolved .undefined)) :=
  ⟨rfl,
    (minimize_primary_failure_triggers_single_hide_fallback
      bridgeFallbackOk "Spotify" "primary failed" rfl).1,
    ((minimize_primary_failure_triggers_single_hide_fallback
      bridgeFallbackOk "Spotify" "primary failed" rfl).2.2.1 .undefined rfl).1⟩

/-- C6: for every bridge result delivered to isOpen, the normalized
result is a boolean: exactly the raw string "true" maps to true and
every other raw value maps to false, so no third result state is
representable. -/
theorem isOpen_normalization_two_valued (app : String) (v : JSValue) :
    (isOpen (fun _ => .ok v) (.str app) .undefined).result
        = .returned (.promise (.resolved (.bool (isTrueLiteral v))))
    ∧ (isTrueLiteral v = true ↔ v = .str "true") :=
  ⟨rfl, by cases v <;> simp [isTrueLiteral]⟩

/-- C7: a successful runningApplications dispatch returning a
one-element wrapper yields the inner ordered sequence unwrapped by
exactly one level, in bridge-reported order; a bridge call returning no
value at all yields the descriptive error (delivered through the
error path of the code: the callback is invoked with the error, and
the deferred carries the error object), never an empty list. -/
theorem runningApplications_unwrap_and_empty_result_error
    (names : List JSValue) (fid : Nat) :
    runningApplications (fun _ => .ok (.arr [.arr names])) .undefined .undefined
        = ⟨[runningApplicationsScript (.bool false)], [],
            .returned (.promise (.resolved (.arr names)))⟩
    ∧ runningApplications (fun _ => .ok .undefined) .undefined (.func fid)
        = ⟨[runningApplicationsScript (.bool false)],
            [[JSValue.error "Could not get running applications."]],
            .returned (.promise (.resolved (.error "Could not get running applications.")))⟩
    ∧ runningApplications (fun _ => .ok .undefined) .undefined .undefined
        = ⟨[runningApplicationsScript (.bool false)], [],
            .returned (.promise (.resolved (.error "Could not get running applications.")))⟩ :=
  ⟨rfl, rfl, rfl⟩

/-- C8: for every operation, supplying a value in the callback position
that is neither callable nor absent causes an invalid-callback failure
raised immediately as a synchronous throw, never delivered through a
returned deferred handle, with no script dispatched. -/
theorem noncallable_callback_throws_immediately
    (bridge : Bridge) (opts app v : JSValue)
    (hfn : jsTypeof v ≠ "function") (hud : v ≠ .undefined) :
    runningApplications bridge opts v
        = ⟨[], [], .thrown (.error ("Callback parameter is not a function, got "
            ++ jsTypeof (if isUndefined opts then JSValue.obj [] else opts)))⟩
    ∧ isOpen bridge app v
        = ⟨[], [], .thrown (.error ("Callback parameter is not a function, got "
            ++ jsTypeof app))⟩
    ∧ quit bridge app v
        = ⟨[], [], .thrown (.error ("Callback parameter is not a function, got "
            ++ jsTypeof app))⟩
    ∧ minimize bridge app opts v
        = ⟨[], [], .thrown (.error ("Callback parameter is not a function, got "
            ++ jsTypeof v))⟩
    ∧ focus bridge app v
        = ⟨[], [], .thrown (.error "Callback parameter is not a function, got ")⟩ := by
  have h1 : isUndefined v = false := isUndefined_eq_false hud
  have h2 : jsTypeof v ≠ "undefined" := jsTypeof_ne_undefined hud
  refine ⟨?_, ?_, ?_, ?_, ?_⟩ <;>
    simp [runningApplications, isOpen, quit, minimize, focus, bne_iff_ne, h1, hfn, h2]

/-- A bridge succeeding with no value on every script. -/
def bridgeOkUndef : Bridge := fun _ => .ok .undefined

theorem noncallable_callback_throws_immediately_witness :
    jsTypeof (JSValue.num 7) ≠ "function"
    ∧ JSValue.num 7 ≠ JSValue.undefined
    ∧ runningApplications bridgeOkUndef (.obj []) (.num 7)
        = ⟨[], [], .thrown (.error ("Callback parameter is not a function, got "
            ++ jsTypeof (if isUndefined (JSValue.obj []) then JSValue.obj [] else JSValue.obj [])))⟩ :=
  ⟨by decide, ⟨(fun h => nomatch h),
    (noncallable_callback_throws_immediately bridgeOkUndef (.obj []) (.str "A") (.num 7)
      (by decide) (fun h => nomatch h)).1⟩⟩

/-- C10: when runningApplications, isOpen or minimize is called with a
completion callback and the operation succeeds, the callback is
invoked with the result and the call also returns a promise settling
with that same result. -/
theorem callback_mode_also_returns_settled_promise
    (inner v w : JSValue) (app : String) (fid : Nat) :
    runningApplications (fun _ => .ok (.arr [inner])) .undefined (.func fid)
        = ⟨[runningApplicationsScript (.bool false)], [[JSValue.null, inner]],
            .returned (.promise (.resolved inner))⟩
    ∧ isOpen (fun _ => .ok v) (.str app) (.func fid)
        = ⟨[isOpenScript app], [[JSValue.null, .bool (isTrueLiteral v)]],
            .returned (.promise (.resolved (.bool (isTrueLiteral v))))⟩
    ∧ minimize (fun _ => .ok w) (.str app) .undefined (.func fid)
        = ⟨[minimizeScript app true], [[]],
            .returned (.promise (.resolved .undefined))⟩ :=
  ⟨rfl, rfl, rfl⟩

/-- C2 (code bug): a validation failure with no callback does not reject
the returned deferred handle; the promise executor is written
`(reject, resolve) => reject(err)`, and the first executor parameter is
the resolve function, so the promise resolves successfully carrying the
error as its value.  Evaluated at the failing input
`runningApplications(42)` with no callback. -/
theorem invalid_options_resolves_promise_with_error (bridge : Bridge) :
    runningApplications bridge (.num 42) .undefined
      = ⟨[], [], .returned (.promise (.resolved
          (.error "Options parameter is not an object, got number")))⟩ :=
  rfl

/-- C3 (code bug): `quit` on a single string and `focus` build their
promise chain without returning it, so a call with no callback returns
`undefined`, not a deferred handle, whatever the bridge does. -/
theorem focus_quit_no_callback_return_undefined (bridge : Bridge) :
    (focus bridge (.str "Terminal") .undefined).result = .returned (.value .undefined)
    ∧ (quit bridge (.str "Spotify") .undefined).result = .returned (.value .undefined) := by
  constructor
  · rcases h : bridge (focusScript "Terminal") with v | e <;>
      simp [focus, asString, jsTypeof, isUndefined, truthy, h]
  · rcases h : bridge (quitSingleScript (.str "Spotify")) with v | e <;>
      simp [quit, jsTypeof, isUndefined, isArray, truthy, h]

/-- C4 (code bug): `quit(42)` is not rejected.  The guard
`typeof application !== "string" && !application instanceof Array`
parses as `(typeof application !== "string") && ((!application)
instanceof Array)`, which is always false, so the number falls through
to the single-application branch and a quit script for "42" is
dispatched to the bridge with no InvalidApplicationType error. -/
theorem quit_invalid_type_dispatches_script (bridge : Bridge) :
    (quit bridge (.num 42) .undefined).dispatched = ["tell application \"42\" to quit"]
    ∧ (quit bridge (.num 42) .undefined).result = .returned (.value .undefined)
    ∧ (quit bridge (.num 42) .undefined).cbCalls = [] := by
  rcases h : bridge (quitSingleScript (.num 42)) with v | e <;>
    refine ⟨?_, ?_, ?_⟩ <;>
    simp [quit, jsTypeof, isUndefined, isArray, truthy, h] <;> rfl

/-- C5 (code bug): `minimize` with `{all: false}` still targets every
window.  The source computes `let all = options.all || true`, which is
`true` whenever `options.all` is falsy, so the built script always sets
the miniaturized attribute of every window. -/
theorem minimize_all_false_still_every_window (bridge : Bridge) :
    (minimize bridge (.str "Safari") (.obj [("all", .bool false)]) .undefined).dispatched.head?
        = some (minimizeScript "Safari" true)
    ∧ minimizeScript "Safari" true
        = "tell application \"Safari\"\n                     set miniaturized of every window to true\n                  end tell"
    ∧ minimizeScript "Safari" false
        = "tell application \"Safari\"\n                     set miniaturized of window 1 to true\n                  end tell" := by
  refine ⟨?_, rfl, rfl⟩
  rcases h : bridge (minimizeScript "Safari" true) with v | e
  · simp [minimize, jsTypeof, isUndefined, truthy, asString, getField, getFieldList, h]
  · rcases h2 : bridge (hideScript "Safari") with v2 | e2 <;>
      simp [minimize, jsTypeof, isUndefined, truthy, asString, getField, getFieldList, h, h2]

/-- C9 (code bug): argument-shape error messages do not always contain
the runtime type of the offending argument.  With a non-callable value
in the callback slot, `runningApplications` interpolates
`typeof options` (here "object") although the offending callback has
type "number"; `focus` passes the type as a discarded second argument
to `new Error`, so its message contains no type at all. -/
theorem callback_error_message_reports_wrong_type (bridge : Bridge) :
    runningApplications bridge (.obj []) (.num 42)
        = ⟨[], [], .thrown (.error "Callback parameter is not a function, got object")⟩
    ∧ jsTypeof (.num 42) = "number"
    ∧ focus bridge (.str "X") (.num 42)
        = ⟨[], [], .thrown (.error "Callback parameter is not a function, got ")⟩ :=
  ⟨rfl, rfl, rfl⟩

end AppManager
